import Mathlib

/-!
Verification of the Image-Resizer static frontend (src/app.js, src/profile.js,
src/editor.js, src/assets.js and the auth page script).  The page scripts are
event-driven DOM code; each event handler is embedded as a pure function from
the observable page state (and, for handlers that await a fetch, from the
outcome of that fetch) to the next page state, together with the list of HTTP
requests the handler issues.  Strings follow JavaScript semantics where the
source relies on them: truthiness of a string is being nonempty, and `a || b`
on strings picks `b` exactly when `a` is empty.
-/

namespace ImageResizer

/-! ### JavaScript string primitives used by the scripts -/

/-- JS string truthiness: a string is truthy exactly when it is nonempty. -/
def jsTruthy (s : String) : Bool := s != ""

/-- JS `a || b` on strings: `b` when `a` is the empty string, else `a`. -/
def jsOrS (a b : String) : String := if a = "" then b else a

/-- The whitespace class trimmed by JS `String.prototype.trim` (ASCII part). -/
def jsWhitespace (c : Char) : Bool :=
  c = ' ' || c = '\t' || c = '\n' || c = '\r' || c = '\x0b' || c = '\x0c'

/-- JS `s.trim()`: drop leading and trailing whitespace. -/
def jsTrim (s : String) : String :=
  String.mk (((s.data.dropWhile jsWhitespace).reverse.dropWhile jsWhitespace).reverse)

/-- JS `s.endsWith(suffix)`, as a suffix test on the character list. -/
def jsEndsWith (s suffix : String) : Bool :=
  List.isSuffixOf suffix.data s.data

/-- JS `email.split("@")[0]`: the characters before the first `@` (the whole
string when there is no `@`). -/
def jsSplitFirstAt (s : String) (c : Char) : String :=
  String.mk (s.data.takeWhile (fun d => d != c))

/-! ### JSON.stringify for arrays of strings (src/app.js lines 226-227) -/

/-- Lowercase hexadecimal digit, for JSON control-character escapes. -/
def hexDigit (n : Nat) : Char :=
  if n < 10 then Char.ofNat (48 + n) else Char.ofNat (87 + n)

/-- The escape JSON.stringify applies to one character of a string literal. -/
def jsonEscapeChar (c : Char) : String :=
  if c = '"' then "\\\""
  else if c = '\\' then "\\\\"
  else if c = '\x08' then "\\b"
  else if c = '\t' then "\\t"
  else if c = '\n' then "\\n"
  else if c = '\x0c' then "\\f"
  else if c = '\r' then "\\r"
  else if c.toNat < 32 then
    "\\u00" ++ String.mk [hexDigit (c.toNat / 16), hexDigit (c.toNat % 16)]
  else String.mk [c]

/-- A JSON string literal for `s`. -/
def jsonQuote (s : String) : String :=
  "\"" ++ String.join (s.data.map jsonEscapeChar) ++ "\""

/-- `JSON.stringify` of an array of strings. -/
def jsonStringifyStrings (xs : List String) : String :=
  "[" ++ String.intercalate "," (xs.map jsonQuote) ++ "]"

/-! ### Environment Resolver

Each page derives the backend base URL from the hostname of its own location
(src/app.js lines 1-3, src/profile.js lines 1-5, src/editor.js lines 6-8 and
the auth page script lines 1-5). -/

/-- The loopback base used by every page when served locally. -/
def loopbackBase : String := "http://127.0.0.1:8000"

/-- The IS_LOCAL test shared by all pages. -/
def isLocalHost (hostname : String) : Bool :=
  hostname == "localhost" || hostname == "127.0.0.1"

/-- API_BASE of src/app.js: loopback locally, else the origin of the page. -/
def appApiBase (hostname origin : String) : String :=
  if isLocalHost hostname then loopbackBase else origin

/-- API_BASE of src/profile.js: loopback locally, else a hardcoded host. -/
def profileApiBase (hostname : String) : String :=
  if isLocalHost hostname then loopbackBase
  else "https://image-resizer-rxnr.onrender.com"

/-- API_BASE of the auth page script: loopback locally, else a hardcoded host. -/
def authApiBase (hostname : String) : String :=
  if isLocalHost hostname then loopbackBase
  else "https://image-resizer-deao.onrender.com"

/-- API_BASE of src/editor.js: loopback locally, else the origin of the page. -/
def editorApiBase (hostname origin : String) : String :=
  if isLocalHost hostname then loopbackBase else origin

/-! ### formatFileName (src/app.js lines 110-113)

`name.replace(/\.[^/.]+$/, "")` removes a trailing `.ext` where `ext` is one
or more characters, none of which is a dot or a slash; the match is anchored
at the end of the string, so at most one position can match and the removed
suffix starts at the last dot of the name. -/

/-- Scanner for the suffix regex, over the reversed character list.  The flag
records whether at least one extension character has been consumed; on a
successful match the result is the reversed remainder before the dot. -/
def extScanRev : List Char → Bool → Option (List Char)
  | [], _ => none
  | c :: rest, seen =>
    if c = '.' then (if seen then some rest else none)
    else if c = '/' then none
    else extScanRev rest true

/-- `name.replace(/\.[^/.]+$/, "")`: remove the final extension when one
exists, else return the name unchanged. -/
def stripExt (s : String) : String :=
  match extScanRev s.data.reverse false with
  | some rem => String.mk rem.reverse
  | none => s

/-- src/app.js lines 110-113: base name of a file, defaulting to "image"
when removing the extension leaves nothing. -/
def formatFileName (name : String) : String :=
  jsOrS (stripExt name) "image"

/-- Declarative description of the final extension: `name` splits as
`stem ++ "." ++ ext` with `ext` nonempty and free of dots and slashes. -/
def IsExtSplit (name stem ext : String) : Prop :=
  name = stem ++ "." ++ ext ∧ ext ≠ "" ∧ ∀ c ∈ ext.data, c ≠ '.' ∧ c ≠ '/'

/-! ### Data model of the upload workflow (src/app.js) -/

/-- A File object as the workflow sees it: name and MIME type. -/
structure JSFile where
  name : String
  type : String
  deriving DecidableEq, Repr

/-- A Pending File Entry of filesState (src/app.js lines 171-179). -/
structure FileEntry where
  file : JSFile
  mainFolder : String
  deriving DecidableEq, Repr

/-- A value appended to a FormData: a file part or a plain string part. -/
inductive FormValue where
  | file : JSFile → FormValue
  | str : String → FormValue
  deriving DecidableEq, Repr

/-- An HTTP request issued by a handler. -/
structure Request where
  url : String
  method : String
  body : List (String × FormValue)
  deriving DecidableEq, Repr

/-- One rendered file card of the file list (src/app.js lines 126-149). -/
structure RenderedCard where
  fileName : String
  badge : String
  inputValue : String
  inputIndex : Nat
  deriving DecidableEq, Repr

/-- One card of the download area (src/app.js lines 184-200): a label and a
link whose download attribute carries the save name. -/
structure DownloadCard where
  labelText : String
  linkHref : String
  linkDownload : String
  deriving DecidableEq, Repr

/-- Observable state of the upload page: the filesState array plus the DOM
the workflow controller writes (file list, process button, progress fill,
status line, download area). -/
structure AppState where
  filesState : List FileEntry
  processDisabled : Bool
  fileListCards : List RenderedCard
  emptyStateShown : Bool
  downloadCards : List DownloadCard
  progressPct : ℚ
  statusText : String
  deriving Repr

/-- setProgress (src/app.js lines 105-108): clamp to [0, 1] and store the
width of the fill bar as a percentage. -/
def setProgress (v : ℚ) : ℚ := max 0 (min 1 v) * 100

/-- The repeated enabling test of src/app.js lines 151 and 163:
`!filesState.every((entry) => entry.mainFolder)`. -/
def everyMainFolderTruthy (fs : List FileEntry) : Bool :=
  fs.all (fun e => jsTruthy e.mainFolder)

/-- renderFiles (src/app.js lines 115-152): rebuild the file list and set the
disabled state of the process button; an empty filesState renders the empty
state and disables processing. -/
def renderFiles (s : AppState) : AppState :=
  if s.filesState.isEmpty then
    { s with fileListCards := [], emptyStateShown := true, processDisabled := true }
  else
    { s with
      fileListCards := s.filesState.enum.map (fun p =>
        { fileName := p.2.file.name
          badge := jsOrS p.2.file.type "image"
          inputValue := p.2.mainFolder
          inputIndex := p.1 })
      emptyStateShown := false
      processDisabled := !everyMainFolderTruthy s.filesState }

/-- The fileInput change handler (src/app.js lines 169-182): rebuild
filesState from the selection, clear the download area, reset progress, set
the status line and re-render. -/
def fileInputChange (s : AppState) (files : List JSFile) : AppState :=
  renderFiles { s with
    filesState := files.map (fun f => { file := f, mainFolder := formatFileName f.name })
    downloadCards := []
    progressPct := setProgress 0
    statusText := "Files loaded. Add folder names and hit process." }

/-- updateStateFromInputs (src/app.js lines 154-165) for an input event on the
folder-name field carrying data-index `i`: store the trimmed value and refresh
the disabled state of the process button.  An index outside filesState would
make the JS handler throw on an undefined entry before any state change, so it
is modelled as leaving the state unchanged. -/
def inputEdit (s : AppState) (i : Nat) (v : String) : AppState :=
  if h : i < s.filesState.length then
    let fs := s.filesState.set i
      { s.filesState.get ⟨i, h⟩ with mainFolder := jsTrim v }
    { s with filesState := fs, processDisabled := !everyMainFolderTruthy fs }
  else s

/-- Abstraction of a fetch Response from POST /resize.  `ok` is response.ok.
`jsonDetail` describes the outcome of `await response.json()`, which consumes
the body either way: `none` when the body does not parse as JSON, and
otherwise the detail field of the parsed object (`none` when the field is
absent; absent and other falsy values behave alike under the JS truthiness
test the handler applies).  `bodyUsedError` is the message of the TypeError
the engine raises when the handler calls response.text() after the body was
already consumed by response.json(); its exact wording is engine-specific, so
it is carried as data.  `blob` identifies the binary body of a success
response.  The raw body text is never observable by this handler: every path
reads the body first through response.json() or response.blob(). -/
structure ResizeResponse where
  ok : Bool
  jsonDetail : Option (Option String)
  bodyUsedError : String
  blob : String
  deriving DecidableEq, Repr

/-- URL.createObjectURL, modelled as a tagged identifier of the blob. -/
def objectUrlOf (blob : String) : String := "blob:" ++ blob

/-- createDownloadCard (src/app.js lines 184-200): a card holding a label with
the display name and a link whose download attribute is the same name. -/
def createDownloadCard (name url : String) : DownloadCard :=
  { labelText := name, linkHref := url, linkDownload := name }

/-- The message of the error that reaches the outer catch of the processBtn
handler on a non-2xx response (src/app.js lines 231-239 and 252-254).  When
the JSON body parses, the handler throws Error(detail), detail being the
truthy detail field or the generic "Server error." default it starts from.
When response.json() rejects, the body is already consumed, so the fallback
`detail = await response.text()` of line 237 itself rejects with the engine
body-already-read TypeError; that rejection escapes the inner catch and the
outer catch displays the TypeError message — the raw body text is never
shown. -/
def resizeErrorMessage (resp : ResizeResponse) : String :=
  match resp.jsonDetail with
  | none => resp.bodyUsedError
  | some none => "Server error."
  | some (some d) => jsOrS d "Server error."

/-- The processBtn click handler (src/app.js lines 203-256).  The backend is
modelled by passing the /resize response as a parameter; the second component
records the request the handler sent (none when it returned early). -/
def processClick (apiBase : String) (s : AppState) (resp : ResizeResponse) :
    AppState × Option Request :=
  if s.filesState.isEmpty then
    ({ s with statusText := "Add files first." }, none)
  else
    let s1 : AppState :=
      { s with
        processDisabled := true
        downloadCards := []
        statusText := "Processing images..."
        progressPct := setProgress 0 }
    let looped := s1.filesState.foldl
      (fun acc e => (acc.1 ++ [("files", FormValue.file e.file)], acc.2 ++ [e.mainFolder]))
      (([] : List (String × FormValue)), ([] : List String))
    let formData := looped.1 ++
      [("base_names", FormValue.str (jsonStringifyStrings looped.2)),
       ("main_folder", FormValue.str (jsonStringifyStrings looped.2))]
    let s2 := { s1 with statusText := "Sending to server..." }
    let req : Request := { url := apiBase ++ "/resize", method := "POST", body := formData }
    if resp.ok then
      let s3 :=
        { s2 with
          downloadCards :=
            s2.downloadCards ++ [createDownloadCard "resized_images.zip" (objectUrlOf resp.blob)]
          progressPct := setProgress 1
          statusText := "All images processed and ready for download!" }
      ({ s3 with processDisabled := false }, some req)
    else
      ({ s2 with
          statusText := "Error: " ++ resizeErrorMessage resp
          processDisabled := false }, some req)

/-! ### Current-user loading on the app pages (src/app.js lines 26-91) -/

/-- The PIXELFIT_ASSETS avatar URLs (src/assets.js). -/
structure Assets where
  femaleProfileUrl : String
  maleProfileUrl : String
  deriving DecidableEq, Repr

/-- The user object of a /api/me response.  The scripts only read these five
fields and only through JS truthiness or string comparison, under which an
absent field and an empty string behave alike, so absent fields are modelled
as empty strings. -/
structure MeUser where
  username : String
  name : String
  email : String
  gender : String
  avatar_url : String
  deriving DecidableEq, Repr

/-- A resolved /api/me response: response.ok and the user of the JSON body. -/
structure MeResult where
  ok : Bool
  user : MeUser
  deriving DecidableEq, Repr

/-- Observable state of an app page for loadCurrentUser: location data, the
body dataset toggle, and the profile DOM written by the handler.  On the pages
that include src/app.js all the referenced elements exist, so the null guards
of the source always pass.  Navigation (assignment to location.href) is
modelled as setting navTarget. -/
structure PageDom where
  pathname : String
  navTarget : Option String
  authToggle : String
  profileHidden : Bool
  authActionsHidden : Bool
  profileUsernameText : String
  profileNameText : String
  profileAvatarSrc : String
  profileAvatarDisplay : String
  profileAvatarFallbackText : String
  profileAvatarFallbackDisplay : String
  deriving DecidableEq, Repr

/-- baseUsernameFromEmail (src/app.js lines 94-99). -/
def baseUsernameFromEmail (email : String) : String :=
  if email = "" then "user"
  else jsOrS (jsSplitFirstAt email '@') "user"

/-- loadCurrentUser of src/app.js (lines 26-91).  The fetch outcome is a
parameter: `Except.error` models a rejected fetch (caught by the catch block),
`Except.ok` a resolved response.  The boolean of the result records whether
the /api/me request was issued at all. -/
def appLoadCurrentUser (assets : Assets) (s : PageDom) (r : Except Unit MeResult) :
    PageDom × Bool :=
  if s.authToggle = "off" then (s, false)
  else
    match r with
    | Except.error _ =>
      ({ s with profileHidden := true, authActionsHidden := false }, true)
    | Except.ok resp =>
      if !resp.ok then
        if jsEndsWith s.pathname "/app.html" || jsEndsWith s.pathname "/Landing.html" then
          ({ s with navTarget := some "login.html" }, true)
        else
          ({ s with profileHidden := true, authActionsHidden := false }, true)
      else
        let user := resp.user
        let s1 := { s with profileHidden := false, authActionsHidden := true }
        let s2 := { s1 with
          profileUsernameText := jsOrS user.username (baseUsernameFromEmail user.email)
          profileNameText := jsOrS (jsOrS user.name user.email) "" }
        let s3 :=
          if jsTruthy user.avatar_url then
            { s2 with
              profileAvatarSrc := user.avatar_url
              profileAvatarDisplay := "block"
              profileAvatarFallbackDisplay := "none" }
          else if user.gender = "female" then
            { s2 with
              profileAvatarSrc := assets.femaleProfileUrl
              profileAvatarDisplay := "block"
              profileAvatarFallbackDisplay := "none" }
          else if user.gender = "male" then
            { s2 with
              profileAvatarSrc := assets.maleProfileUrl
              profileAvatarDisplay := "block"
              profileAvatarFallbackDisplay := "none" }
          else
            { s2 with
              profileAvatarSrc := ""
              profileAvatarDisplay := "none"
              profileAvatarFallbackText := "👤"
              profileAvatarFallbackDisplay := "block" }
        (s3, true)

/-! ### Profile page (src/profile.js) -/

/-- Observable state of the profile page: navigation target plus the DOM
written by its handlers. -/
structure ProfileDom where
  navTarget : Option String
  userPanelHidden : Bool
  userGreetingText : String
  usernameInputValue : String
  usernameMessageText : String
  usernameMessageTone : String
  deriving DecidableEq, Repr

/-- loadCurrentUser of src/profile.js (lines 19-34): any failure (non-2xx or
rejected fetch) navigates to login.html; success reveals the panel and fills
the greeting and the username input. -/
def profileLoadCurrentUser (s : ProfileDom) (r : Except Unit MeResult) : ProfileDom :=
  match r with
  | Except.error _ => { s with navTarget := some "login.html" }
  | Except.ok resp =>
    if !resp.ok then { s with navTarget := some "login.html" }
    else
      { s with
        userPanelHidden := false
        userGreetingText := "Signed in as " ++ jsOrS resp.user.name resp.user.email ++ "."
        usernameInputValue := jsOrS resp.user.username "" }

/-- The signOutBtn click handler (src/profile.js lines 63-72).  `confirmed` is
the result of the window.confirm prompt.  `fetchResult` is the outcome of the
awaited logout fetch: `Except.ok status` for any resolved response (the status
is never inspected), `Except.error` for a rejected fetch, in which case the
async handler aborts before the navigation line (the rejection is unhandled
and the page stays where it is). -/
def signOutClick (apiBase : String) (s : ProfileDom) (confirmed : Bool)
    (fetchResult : Except Unit Nat) : ProfileDom × List Request :=
  if !confirmed then (s, [])
  else
    match fetchResult with
    | Except.ok _ =>
      ({ s with navTarget := some "index.html" },
       [{ url := apiBase ++ "/api/logout", method := "POST", body := [] }])
    | Except.error _ =>
      (s, [{ url := apiBase ++ "/api/logout", method := "POST", body := [] }])

/-! ### Editor page (src/editor.js) -/

/-- Observable state of the editor page for the export handler: the status
line and the archive downloads it has triggered. -/
structure EditorState where
  statusText : String
  downloads : List String
  deriving DecidableEq, Repr

/-- A resolved /resize response as the editor reads it. -/
structure EditorResp where
  ok : Bool
  text : String
  blob : String
  deriving DecidableEq, Repr

/-- The exportBtn click handler (src/editor.js lines 80-117) on a page with a
loaded image, given that the widget export succeeds (widget failures land in
the catch block, outside this model of the external editor).  `now` is
Date.now at the click; the second component lists the requests sent. -/
def editorExportClick (apiBase : String) (s : EditorState) (now : Nat)
    (resp : EditorResp) : EditorState × List Request :=
  let s1 := { s with statusText := "Exporting and generating sizes..." }
  let filename := "pixelfit_edit_" ++ toString now ++ ".jpeg"
  let file : JSFile := { name := filename, type := "image/jpeg" }
  let req : Request :=
    { url := apiBase ++ "/resize", method := "POST"
      body := [("files", FormValue.file file)] }
  if !resp.ok then
    ({ s1 with statusText := "Resize failed: " ++ resp.text }, [req])
  else
    ({ s1 with
        statusText := "Your ZIP is ready."
        downloads := s1.downloads ++ ["pixelfit_resized_images.zip"] }, [req])

/-! ### Specification-side predicates -/

/-- The enabling invariant the upload page actually maintains: the process
button is disabled exactly when the Pending File Entry sequence is empty or
some entry has an empty mainFolder. -/
def BlankDisabled (s : AppState) : Prop :=
  s.processDisabled = true ↔ s.filesState = [] ∨ ∃ e ∈ s.filesState, e.mainFolder = ""

/-! ### Concrete values used by witnesses and counterexamples -/

/-- A selected file. -/
def demoFile : JSFile := { name := "photo.png", type := "image/png" }

/-- The Pending File Entry the change handler builds for demoFile. -/
def demoEntry : FileEntry := { file := demoFile, mainFolder := "photo" }

/-- An upload page holding one complete entry. -/
def demoAppState : AppState :=
  { filesState := [demoEntry]
    processDisabled := false
    fileListCards := []
    emptyStateShown := false
    downloadCards := []
    progressPct := 0
    statusText := "" }

/-- A non-2xx /resize response whose JSON body has an empty detail field. -/
def emptyDetailResp : ResizeResponse :=
  { ok := false, jsonDetail := some (some "")
    bodyUsedError := "body stream already read", blob := "" }

/-- The 422 response of the specification example: JSON body with detail
field "bad image". -/
def badImageResp : ResizeResponse :=
  { ok := false, jsonDetail := some (some "bad image")
    bodyUsedError := "body stream already read", blob := "" }

/-- A successful /resize response carrying a ZIP blob. -/
def okZipResp : ResizeResponse :=
  { ok := true, jsonDetail := none
    bodyUsedError := "body stream already read", blob := "zipbytes" }

/-- A non-2xx /resize response whose body is not JSON at all (for example a
plain-text error page), making response.json() reject. -/
def notJsonResp : ResizeResponse :=
  { ok := false, jsonDetail := none
    bodyUsedError := "body stream already read", blob := "" }

/-- A user object with every field absent. -/
def emptyUser : MeUser :=
  { username := "", name := "", email := "", gender := "", avatar_url := "" }

/-- A non-2xx /api/me response. -/
def demoMeFail : MeResult := { ok := false, user := emptyUser }

/-- The avatar assets of src/assets.js. -/
def demoAssets : Assets :=
  { femaleProfileUrl := "/Image/Female Profile.png"
    maleProfileUrl := "/Image/Male Profile.png" }

/-- A protected app page before loadCurrentUser runs. -/
def demoPageDom : PageDom :=
  { pathname := "/Image-Resizer/app.html"
    navTarget := none
    authToggle := ""
    profileHidden := false
    authActionsHidden := false
    profileUsernameText := ""
    profileNameText := ""
    profileAvatarSrc := ""
    profileAvatarDisplay := ""
    profileAvatarFallbackText := ""
    profileAvatarFallbackDisplay := "" }

/-- The same page with the auth toggle switched off. -/
def demoPageDomOff : PageDom := { demoPageDom with authToggle := "off" }

/-- A profile page before any handler runs. -/
def demoProfileDom : ProfileDom :=
  { navTarget := none
    userPanelHidden := true
    userGreetingText := ""
    usernameInputValue := ""
    usernameMessageText := ""
    usernameMessageTone := "" }

/-- An editor page before an export click. -/
def demoEditorState : EditorState := { statusText := "", downloads := [] }

/-! ## Helper lemmas -/

theorem string_data_append (a b : String) : (a ++ b).data = a.data ++ b.data := rfl

theorem string_mk_data (s : String) : String.mk s.data = s := rfl

theorem dot_data : ("." : String).data = ['.'] := rfl

theorem string_ne_empty_iff_data (s : String) : s ≠ "" ↔ s.data ≠ [] := by
  constructor
  · intro h hd
    apply h
    have h1 : String.mk s.data = String.mk [] := by rw [hd]
    simpa [string_mk_data] using h1
  · intro h hs
    subst hs
    exact h rfl

theorem extScanRev_clean (xs rest : List Char) (b : Bool)
    (hclean : ∀ c ∈ xs, c ≠ '.' ∧ c ≠ '/') (hne : xs ≠ [] ∨ b = true) :
    extScanRev (xs ++ '.' :: rest) b = some rest := by
  induction xs generalizing b with
  | nil =>
    rcases hne with h | h
    · exact absurd rfl h
    · subst h
      simp [extScanRev]
  | cons c t ih =>
    obtain ⟨hdot, hslash⟩ := hclean c (List.mem_cons_self c t)
    rw [List.cons_append]
    show extScanRev (c :: (t ++ '.' :: rest)) b = some rest
    rw [extScanRev]
    rw [if_neg hdot, if_neg hslash]
    exact ih true (fun d hd => hclean d (List.mem_cons_of_mem c hd)) (Or.inr rfl)

theorem extScanRev_some (rcs : List Char) (b : Bool) (rest : List Char)
    (h : extScanRev rcs b = some rest) :
    ∃ xs, rcs = xs ++ '.' :: rest ∧ (∀ c ∈ xs, c ≠ '.' ∧ c ≠ '/') ∧
      (b = true ∨ xs ≠ []) := by
  induction rcs generalizing b with
  | nil => simp [extScanRev] at h
  | cons c t ih =>
    by_cases hdot : c = '.'
    · subst hdot
      by_cases hb : b = true
      · have ht : t = rest := by
          rw [extScanRev, if_pos rfl, if_pos hb] at h
          exact Option.some.inj h
        exact ⟨[], by simp [ht], by simp, Or.inl hb⟩
      · rw [extScanRev, if_pos rfl, if_neg hb] at h
        exact absurd h (by simp)
    · by_cases hslash : c = '/'
      · rw [extScanRev, if_neg hdot, if_pos hslash] at h
        exact absurd h (by simp)
      · rw [extScanRev, if_neg hdot, if_neg hslash] at h
        obtain ⟨xs, hxs, hcl, _⟩ := ih true h
        refine ⟨c :: xs, by simp [hxs], ?_, Or.inr (by simp)⟩
        intro d hd
        rcases List.mem_cons.mp hd with rfl | hd'
        · exact ⟨hdot, hslash⟩
        · exact hcl d hd'

theorem stripExt_of_split (name stem ext : String) (h : IsExtSplit name stem ext) :
    stripExt name = stem := by
  obtain ⟨hname, hext, hclean⟩ := h
  have hdata : name.data = stem.data ++ '.' :: ext.data := by
    rw [hname, string_data_append, string_data_append, dot_data]
    simp
  have hrev : name.data.reverse = ext.data.reverse ++ '.' :: stem.data.reverse := by
    rw [hdata]
    simp
  have hcl : ∀ c ∈ ext.data.reverse, c ≠ '.' ∧ c ≠ '/' := by
    intro c hc
    exact hclean c (List.mem_reverse.mp hc)
  have hne : ext.data.reverse ≠ [] ∨ false = true := by
    left
    simpa [List.reverse_eq_nil_iff] using (string_ne_empty_iff_data ext).mp hext
  have hscan := extScanRev_clean ext.data.reverse stem.data.reverse false hcl hne
  unfold stripExt
  rw [hrev, hscan]
  simp [string_mk_data]

theorem stripExt_of_no_split (name : String)
    (h : ∀ stem ext, ¬ IsExtSplit name stem ext) :
    stripExt name = name := by
  unfold stripExt
  cases hscan : extScanRev name.data.reverse false with
  | none => rfl
  | some rest =>
    exfalso
    obtain ⟨xs, hx, hclean, hb⟩ := extScanRev_some _ _ _ hscan
    have hxs : xs ≠ [] := by
      rcases hb with h' | h'
      · cases h'
      · exact h'
    have hd : name.data = rest.reverse ++ '.' :: xs.reverse := by
      have h1 := congrArg List.reverse hx
      simpa using h1
    apply h (String.mk rest.reverse) (String.mk xs.reverse)
    refine ⟨?_, ?_, ?_⟩
    · apply String.ext
      rw [hd, string_data_append, string_data_append, dot_data]
      simp
    · rw [string_ne_empty_iff_data]
      simpa using hxs
    · intro c hc
      exact hclean c (List.mem_reverse.mp hc)

theorem formatFileName_of_split (name stem ext : String) (h : IsExtSplit name stem ext) :
    formatFileName name = if stem = "" then "image" else stem := by
  rw [formatFileName, stripExt_of_split name stem ext h]
  rfl

theorem formatFileName_of_no_split (name : String)
    (h : ∀ stem ext, ¬ IsExtSplit name stem ext) :
    formatFileName name = if name = "" then "image" else name := by
  rw [formatFileName, stripExt_of_no_split name h]
  rfl

/-! ## Enabling invariant of the process action -/

theorem everyMainFolderTruthy_eq_false_iff (fs : List FileEntry) :
    everyMainFolderTruthy fs = false ↔ ∃ e ∈ fs, e.mainFolder = "" := by
  simp [everyMainFolderTruthy, jsTruthy]

theorem renderFiles_filesState (s : AppState) :
    (renderFiles s).filesState = s.filesState := by
  unfold renderFiles
  split <;> rfl

theorem blankDisabled_renderFiles (s : AppState) : BlankDisabled (renderFiles s) := by
  unfold BlankDisabled renderFiles
  by_cases h : s.filesState.isEmpty
  · simp [h, List.isEmpty_iff.mp h]
  · have hne : s.filesState ≠ [] := by simpa [List.isEmpty_iff] using h
    simp [h, hne, everyMainFolderTruthy_eq_false_iff]

/-- Claim C1, as stated, is refuted by a selection of zero files (the change
handler of src/app.js explicitly handles an empty selection and renderFiles
then disables the process button): every entry of the empty sequence
vacuously has a non-blank mainFolder, yet processBtn.disabled is true. -/
theorem c1_counterexample :
    (fileInputChange demoAppState []).processDisabled = true
    ∧ (fileInputChange demoAppState []).filesState.all
        (fun e => e.mainFolder != "") = true := by
  constructor
  · rfl
  · rfl

/-- Claim C1 (amended): after any file selection, any folder-name edit on an
index inside the sequence, and any re-render, processBtn.disabled is true
exactly when the Pending File Entry sequence is empty or some entry has an
empty mainFolder; equivalently, for a nonempty sequence the process action is
enabled iff every entry has a nonempty mainFolder, so editing a single entry
to blank disables it and restoring a nonempty value re-enables it. -/
theorem c1_amended (s : AppState) (files : List JSFile) (i : Nat) (v : String) :
    BlankDisabled (fileInputChange s files)
    ∧ (i < s.filesState.length → BlankDisabled (inputEdit s i v))
    ∧ BlankDisabled (renderFiles s) := by
  refine ⟨?_, ?_, blankDisabled_renderFiles s⟩
  · unfold fileInputChange
    exact blankDisabled_renderFiles _
  · intro hi
    unfold BlankDisabled inputEdit
    rw [dif_pos hi]
    have hne : s.filesState ≠ [] := by
      intro h0
      rw [h0] at hi
      exact absurd hi (by simp)
    simp [hne, everyMainFolderTruthy_eq_false_iff]

/-- Witness for the amended claim C1: editing the only entry of the demo page
to a blank string disables the process action. -/
theorem c1_witness : BlankDisabled (inputEdit demoAppState 0 " ") :=
  (c1_amended demoAppState [] 0 " ").2.1 (by decide)

/-! ## Environment Resolver -/

/-- Claim C5: on every page, a hostname of localhost or 127.0.0.1 resolves the
backend base to the loopback base, and every other hostname resolves to the
configured non-local base: the origin of the page for src/app.js and
src/editor.js, and the hardcoded production hosts for src/profile.js and the
auth page script. -/
theorem c5_env_resolver (host origin : String) :
    ((host = "localhost" ∨ host = "127.0.0.1") →
      appApiBase host origin = loopbackBase
      ∧ profileApiBase host = loopbackBase
      ∧ authApiBase host = loopbackBase
      ∧ editorApiBase host origin = loopbackBase)
    ∧ (host ≠ "localhost" → host ≠ "127.0.0.1" →
      appApiBase host origin = origin
      ∧ profileApiBase host = "https://image-resizer-rxnr.onrender.com"
      ∧ authApiBase host = "https://image-resizer-deao.onrender.com"
      ∧ editorApiBase host origin = origin) := by
  constructor
  · intro h
    have hl : isLocalHost host = true := by
      rcases h with h | h <;> simp [isLocalHost, h]
    simp [appApiBase, profileApiBase, authApiBase, editorApiBase, hl]
  · intro h1 h2
    have hl : isLocalHost host = false := by
      simp [isLocalHost, h1, h2]
    simp [appApiBase, profileApiBase, authApiBase, editorApiBase, hl]

/-- Witness for claim C5 at concrete hostnames on both sides of the test. -/
theorem c5_witness :
    appApiBase "localhost" "https://desto374.github.io" = loopbackBase
    ∧ profileApiBase "desto374.github.io" = "https://image-resizer-rxnr.onrender.com" :=
  ⟨((c5_env_resolver "localhost" "https://desto374.github.io").1 (Or.inl rfl)).1,
   ((c5_env_resolver "desto374.github.io" "https://desto374.github.io").2
      (by decide) (by decide)).2.1⟩

/-! ## The authToggle escape hatch of loadCurrentUser -/

/-- Claim C10: when the body dataset attribute authToggle is "off",
loadCurrentUser of src/app.js returns immediately: no /api/me request is
issued, no redirect happens even on protected paths, and no profile or
auth-action DOM state changes. -/
theorem c10_auth_toggle_off (assets : Assets) (s : PageDom)
    (r : Except Unit MeResult) (h : s.authToggle = "off") :
    appLoadCurrentUser assets s r = (s, false) := by
  unfold appLoadCurrentUser
  rw [if_pos h]

/-- Witness for claim C10 on a protected page with a failing /api/me. -/
theorem c10_witness :
    appLoadCurrentUser demoAssets demoPageDomOff (Except.ok demoMeFail)
      = (demoPageDomOff, false) :=
  c10_auth_toggle_off demoAssets demoPageDomOff (Except.ok demoMeFail) rfl

/-! ## The batch /resize workflow -/

theorem foldl_form_eq (fs : List FileEntry) (acc1 : List (String × FormValue))
    (acc2 : List String) :
    fs.foldl
      (fun acc e => (acc.1 ++ [("files", FormValue.file e.file)], acc.2 ++ [e.mainFolder]))
      (acc1, acc2)
      = (acc1 ++ fs.map (fun e => ("files", FormValue.file e.file)),
         acc2 ++ fs.map (fun e => e.mainFolder)) := by
  induction fs generalizing acc1 acc2 with
  | nil => simp
  | cons e t ih => simp [ih]

/-- Claim C6: for a nonempty entry sequence, the processBtn click handler
sends a POST to apiBase/resize whose multipart body lists each file under the
repeated field "files" in sequence order, followed by the ordered folder-name
list serialized once as a JSON array string under the key "base_names" and
once, identically, under the key "main_folder". -/
theorem c6_resize_request (apiBase : String) (s : AppState) (resp : ResizeResponse)
    (hne : s.filesState ≠ []) :
    (processClick apiBase s resp).2 = some
      { url := apiBase ++ "/resize", method := "POST"
        body := s.filesState.map (fun e => ("files", FormValue.file e.file))
          ++ [("base_names", FormValue.str
                (jsonStringifyStrings (s.filesState.map (fun e => e.mainFolder)))),
              ("main_folder", FormValue.str
                (jsonStringifyStrings (s.filesState.map (fun e => e.mainFolder))))] } := by
  have hempty : s.filesState.isEmpty = false := by simpa [List.isEmpty_iff] using hne
  cases hok : resp.ok
  · simp [processClick, hempty, hok, foldl_form_eq]
  · simp [processClick, hempty, hok, foldl_form_eq]

/-- Witness for claim C6 on the demo page with its single complete entry. -/
theorem c6_witness :
    (processClick loopbackBase demoAppState okZipResp).2 = some
      { url := loopbackBase ++ "/resize", method := "POST"
        body := [demoEntry].map (fun e => ("files", FormValue.file e.file))
          ++ [("base_names", FormValue.str
                (jsonStringifyStrings ([demoEntry].map (fun e => e.mainFolder)))),
              ("main_folder", FormValue.str
                (jsonStringifyStrings ([demoEntry].map (fun e => e.mainFolder))))] } :=
  c6_resize_request loopbackBase demoAppState okZipResp (by decide)

/-- Claim C3, as stated, is refuted by a non-2xx response whose JSON body has
an empty detail field: the field parses, but JS truthiness makes the handler
fall back to the generic "Server error." text, so the displayed message is
"Error: Server error." rather than "Error: " followed by the detail field. -/
theorem c3_counterexample :
    (processClick loopbackBase demoAppState emptyDetailResp).1.statusText
      = "Error: Server error."
    ∧ "Error: Server error." ≠ "Error: " ++ "" := by
  constructor
  · rfl
  · decide

/-- Claim C3 (amended): for a non-2xx /resize response, when the JSON body
parses with a nonempty detail field the displayed status is "Error: "
followed by that field (in particular a 422 body with detail "bad image"
displays exactly "Error: bad image"); a parsed body whose detail field is
missing or empty displays the generic "Error: Server error."; and when the
body fails to parse as JSON, the attempted raw-text fallback itself fails —
response.json() already consumed the body, so response.text() rejects — and
the displayed status is "Error: " followed by the engine body-already-read
TypeError message, never the raw body text. -/
theorem c3_amended (apiBase : String) (s : AppState) (resp : ResizeResponse)
    (hne : s.filesState ≠ []) (hok : resp.ok = false) :
    (∀ d, resp.jsonDetail = some (some d) → d ≠ "" →
      (processClick apiBase s resp).1.statusText = "Error: " ++ d)
    ∧ (∀ d, resp.jsonDetail = some (some d) → d = "" →
      (processClick apiBase s resp).1.statusText = "Error: Server error.")
    ∧ (resp.jsonDetail = some none →
      (processClick apiBase s resp).1.statusText = "Error: Server error.")
    ∧ (resp.jsonDetail = none →
      (processClick apiBase s resp).1.statusText
        = "Error: " ++ resp.bodyUsedError) := by
  have hempty : s.filesState.isEmpty = false := by simpa [List.isEmpty_iff] using hne
  refine ⟨?_, ?_, ?_, ?_⟩
  · intro d hd hdne
    simp [processClick, hempty, hok, resizeErrorMessage, hd, jsOrS, hdne]
  · intro d hd hdempty
    subst hdempty
    simp [processClick, hempty, hok, resizeErrorMessage, hd, jsOrS]
  · intro hd
    simp [processClick, hempty, hok, resizeErrorMessage, hd]
  · intro hd
    simp [processClick, hempty, hok, resizeErrorMessage, hd]

/-- Witness for the amended claim C3: the 422 example of the specification,
and a non-JSON error body displaying the engine TypeError message. -/
theorem c3_witness :
    (processClick loopbackBase demoAppState badImageResp).1.statusText
      = "Error: " ++ "bad image"
    ∧ (processClick loopbackBase demoAppState notJsonResp).1.statusText
      = "Error: " ++ notJsonResp.bodyUsedError :=
  ⟨(c3_amended loopbackBase demoAppState badImageResp (by decide) rfl).1
      "bad image" rfl (by decide),
   (c3_amended loopbackBase demoAppState notJsonResp (by decide) rfl).2.2.2 rfl⟩

/-- Claim C4: a successful /resize response leaves exactly one download card
in the download area, whose label and download name are both
"resized_images.zip", and sets the progress indicator to 100 percent. -/
theorem c4_success (apiBase : String) (s : AppState) (resp : ResizeResponse)
    (hne : s.filesState ≠ []) (hok : resp.ok = true) :
    (processClick apiBase s resp).1.downloadCards
      = [createDownloadCard "resized_images.zip" (objectUrlOf resp.blob)]
    ∧ (createDownloadCard "resized_images.zip" (objectUrlOf resp.blob)).labelText
      = "resized_images.zip"
    ∧ (createDownloadCard "resized_images.zip" (objectUrlOf resp.blob)).linkDownload
      = "resized_images.zip"
    ∧ (processClick apiBase s resp).1.progressPct = 100 := by
  have hempty : s.filesState.isEmpty = false := by simpa [List.isEmpty_iff] using hne
  refine ⟨?_, rfl, rfl, ?_⟩
  · simp [processClick, hempty, hok]
  · simp [processClick, hempty, hok, setProgress]

/-- Witness for claim C4 on the demo page and a successful response. -/
theorem c4_witness :
    (processClick loopbackBase demoAppState okZipResp).1.progressPct = 100 :=
  (c4_success loopbackBase demoAppState okZipResp (by decide) rfl).2.2.2

/-! ## Protected-page behaviour of loadCurrentUser -/

/-- Claim C7: on a protected page (path ending in /app.html or /Landing.html)
whose /api/me request resolves with a non-2xx status, loadCurrentUser of
src/app.js navigates to login.html and changes nothing else (no profile DOM
field is written), and loadCurrentUser of src/profile.js likewise navigates
to login.html and writes no profile data. -/
theorem c7_protected_redirect (assets : Assets) (s : PageDom) (resp : MeResult)
    (ps : ProfileDom) (presp : MeResult)
    (hprot : jsEndsWith s.pathname "/app.html" = true
      ∨ jsEndsWith s.pathname "/Landing.html" = true)
    (htoggle : s.authToggle ≠ "off")
    (hok : resp.ok = false) (hpok : presp.ok = false) :
    appLoadCurrentUser assets s (Except.ok resp)
      = ({ s with navTarget := some "login.html" }, true)
    ∧ profileLoadCurrentUser ps (Except.ok presp)
      = { ps with navTarget := some "login.html" } := by
  constructor
  · unfold appLoadCurrentUser
    rw [if_neg htoggle]
    rcases hprot with h | h <;> simp [hok, h]
  · unfold profileLoadCurrentUser
    simp [hpok]

/-- Witness for claim C7 on the demo app page with a failing /api/me. -/
theorem c7_witness :
    appLoadCurrentUser demoAssets demoPageDom (Except.ok demoMeFail)
      = ({ demoPageDom with navTarget := some "login.html" }, true) :=
  (c7_protected_redirect demoAssets demoPageDom demoMeFail demoProfileDom demoMeFail
    (Or.inl (by decide)) (by decide) rfl rfl).1

/-! ## Sign-out -/

/-- Claim C8, as stated, is refuted on the path where the logout fetch itself
rejects (a network failure): the handler has no try/catch, so after a
confirmed click the logout POST is issued but the awaited rejection aborts
the handler before the navigation line, and neither a navigation nor any
status update happens. -/
theorem c8_counterexample :
    (signOutClick loopbackBase demoProfileDom true (Except.error ())).2
      = [{ url := loopbackBase ++ "/api/logout", method := "POST", body := [] }]
    ∧ (signOutClick loopbackBase demoProfileDom true (Except.error ())).1.navTarget
      ≠ some "index.html" := by
  constructor
  · rfl
  · decide

/-- Claim C8 (amended): declining the confirmation prompt issues no request
and navigates nowhere; after confirmation a logout POST is issued and, for
every resolved response, navigation to index.html follows regardless of the
response status; but when the logout fetch itself rejects, the handler stops
after issuing the request and neither navigates nor updates any status. -/
theorem c8_amended (apiBase : String) (s : ProfileDom) (r : Except Unit Nat) :
    signOutClick apiBase s false r = (s, [])
    ∧ (∀ status : Nat, signOutClick apiBase s true (Except.ok status)
        = ({ s with navTarget := some "index.html" },
           [{ url := apiBase ++ "/api/logout", method := "POST", body := [] }]))
    ∧ signOutClick apiBase s true (Except.error ())
        = (s, [{ url := apiBase ++ "/api/logout", method := "POST", body := [] }]) :=
  ⟨rfl, fun _ => rfl, rfl⟩

/-- Witness for the amended claim C8: a confirmed sign-out whose logout fetch
resolves with status 500 still navigates home. -/
theorem c8_witness :
    signOutClick loopbackBase demoProfileDom true (Except.ok 500)
      = ({ demoProfileDom with navTarget := some "index.html" },
         [{ url := loopbackBase ++ "/api/logout", method := "POST", body := [] }]) :=
  (c8_amended loopbackBase demoProfileDom (Except.ok 500)).2.1 500

/-! ## Editor export -/

/-- Claim C9: an export click with a loaded image sends exactly one request,
a POST to apiBase/resize whose multipart body has a single file entry under
the field name "files", and a non-2xx response displays "Resize failed: "
followed by the response body text. -/
theorem c9_editor_export (apiBase : String) (s : EditorState) (now : Nat)
    (resp : EditorResp) :
    (editorExportClick apiBase s now resp).2
      = [{ url := apiBase ++ "/resize", method := "POST"
           body := [("files", FormValue.file
             { name := "pixelfit_edit_" ++ toString now ++ ".jpeg"
               type := "image/jpeg" })] }]
    ∧ (resp.ok = false →
      (editorExportClick apiBase s now resp).1.statusText
        = "Resize failed: " ++ resp.text) := by
  constructor
  · cases hok : resp.ok <;> simp [editorExportClick, hok]
  · intro hok
    simp [editorExportClick, hok]

/-- Witness for claim C9 on a concrete failing export. -/
theorem c9_witness :
    (editorExportClick loopbackBase demoEditorState 1700000000000
      { ok := false, text := "unsupported media", blob := "" }).1.statusText
      = "Resize failed: " ++ "unsupported media" :=
  (c9_editor_export loopbackBase demoEditorState 1700000000000
    { ok := false, text := "unsupported media", blob := "" }).2 rfl

/-! ## File selection -/

/-- Claim C2: a selection of N files (N at least 1) yields a Pending File
Entry sequence of length N in selection order, and the initial mainFolder of
the i-th entry is the i-th file name with its final extension removed — a
final extension being a trailing dot-ext with ext nonempty and free of dots
and slashes — or the string "image" when removing the extension yields the
empty string. -/
theorem c2_file_selection (s : AppState) (files : List JSFile)
    (hN : 1 ≤ files.length) :
    (fileInputChange s files).filesState.length = files.length
    ∧ ∀ (i : Nat) (f : JSFile), files[i]? = some f →
        ∃ e : FileEntry, (fileInputChange s files).filesState[i]? = some e
          ∧ e.file = f
          ∧ (∀ stem ext, IsExtSplit f.name stem ext →
              e.mainFolder = if stem = "" then "image" else stem)
          ∧ ((∀ stem ext, ¬ IsExtSplit f.name stem ext) →
              e.mainFolder = if f.name = "" then "image" else f.name) := by
  constructor
  · unfold fileInputChange
    rw [renderFiles_filesState]
    simp
  · intro i f hif
    refine ⟨{ file := f, mainFolder := formatFileName f.name }, ?_, rfl, ?_, ?_⟩
    · unfold fileInputChange
      rw [renderFiles_filesState]
      simp [List.getElem?_map, hif]
    · intro stem ext hsplit
      exact formatFileName_of_split f.name stem ext hsplit
    · intro hno
      exact formatFileName_of_no_split f.name hno

/-- Witness for claim C2 on a one-file selection. -/
theorem c2_witness :
    (fileInputChange demoAppState [demoFile]).filesState.length
      = [demoFile].length :=
  (c2_file_selection demoAppState [demoFile] (by decide)).1

end ImageResizer
